import Mathlib

/-!
Verification development for the transcript-analysis script
(`src/research/videos/analyze_transcripts.py`).

The script is embedded shallowly:
* sentences are lists of characters (`List Char`);
* Python `str.strip()` is `pyStrip` (drop ASCII whitespace from both ends);
* Python `str.lower()` is `List.map Char.toLower` (ASCII lowercasing, the
  only case the script's keyword sets exercise);
* Python `k in s` (substring membership) is `hasSub k.data s`;
* `re.split(r'[.!?]', text)` is `splitSentences text.data`;
* the insight dictionary is the structure `Insights` (the keys `video_id`
  and `transcript_length`, set by `analyze_videos` after classification,
  are fields initialised to `""` and `0` by `extract_key_insights`);
* Python `list(set(xs))[:10]` is `xs.dedup.take 10` (`uniqueTop`): the CPython
  set-iteration order is unspecified, so it is modelled by one concrete
  duplicate-free enumeration of the same set;
* the impure parts of `generate_markdown_report` (the wall-clock timestamp)
  and of `analyze_videos` (the transcript fetch, which may raise) are passed
  in explicitly: the timestamp as a string, the fetch as
  `String → Except String (List String)` (a raised exception is `.error`,
  a fetched transcript is its ordered list of segment texts, and the
  external `TextFormatter` joins the segments with newlines).
-/

/-- The ASCII whitespace characters removed by Python's `str.strip()`
(the inputs of interest contain no non-ASCII whitespace). -/
def pyWhitespace (c : Char) : Bool :=
  c = ' ' || c = '\t' || c = '\n' || c = '\r' || c = '\x0b' || c = '\x0c'

/-- Python `sentence.strip()`: drop whitespace from the front, then from the
back (`List.rdropWhile p` is `reverse ∘ dropWhile p ∘ reverse`). -/
def pyStrip (l : List Char) : List Char :=
  List.rdropWhile pyWhitespace (List.dropWhile pyWhitespace l)

/-- The three sentence terminators of the regex `[.!?]` at line 49. -/
def isSentenceTerminator (c : Char) : Bool :=
  c = '.' || c = '!' || c = '?'

/-- `re.split(r'[.!?]', text)`: cut the character list at every terminator,
keeping empty segments, so a text with `n` terminators yields `n + 1`
segments. -/
def splitSentences : List Char → List (List Char)
  | [] => [[]]
  | c :: cs =>
    if isSentenceTerminator c then [] :: splitSentences cs
    else
      match splitSentences cs with
      | [] => [[c]]
      | s :: rest => (c :: s) :: rest

/-- `needle` is an initial run of `hay` (character-by-character). -/
def startsWithCh : List Char → List Char → Bool
  | [], _ => true
  | _ :: _, [] => false
  | a :: as, b :: bs => a = b && startsWithCh as bs

/-- Python substring membership `needle in hay`. -/
def hasSub (needle : List Char) : List Char → Bool
  | [] => startsWithCh needle []
  | b :: bs => startsWithCh needle (b :: bs) || hasSub needle bs

/-- Line 45 of the script. -/
def implementation_keywords : List String :=
  ["setup", "initialize", "create", "implement", "code", "function", "class", "method"]

/-- Line 46 of the script. -/
def performance_keywords : List String :=
  ["optimize", "performance", "fps", "frame rate", "latency", "speed", "fast", "efficient"]

/-- Line 47 of the script. -/
def game_keywords : List String :=
  ["game", "score", "player", "collision", "physics", "movement", "control", "input"]

/-- Line 48 of the script. -/
def issue_keywords : List String :=
  ["problem", "issue", "error", "fix", "solution", "debug", "troubleshoot", "careful"]

/-- `any(keyword in sentence_lower for keyword in keywords)`. -/
def matchesAny (keywords : List String) (s : List Char) : Bool :=
  keywords.any fun k => hasSub k.data s

/-- The nested test of lines 55-57 (and its three clones): some keyword is a
substring of `sentence.lower().strip()`, and `len(sentence.strip()) > 20`. -/
def keywordCond (keywords : List String) (sentence : List Char) : Bool :=
  matchesAny keywords (pyStrip (sentence.map Char.toLower)) &&
    decide ((pyStrip sentence).length > 20)

/-- The code-pattern test of line 76: the four literals are sought in the
original sentence (not lowered, not stripped), with no length filter. -/
def codeCond (sentence : List Char) : Bool :=
  hasSub "const ".data sentence || hasSub "let ".data sentence ||
    hasSub "function ".data sentence || hasSub "var ".data sentence

/-- The insight record built by `extract_key_insights` (a Python dict in the
source); `video_id` and `transcript_length` are filled in by
`analyze_videos`. -/
structure Insights where
  title : String
  implementation_patterns : List String
  performance_tips : List String
  game_mechanics : List String
  common_issues : List String
  code_snippets : List String
  video_id : String
  transcript_length : Nat
  deriving DecidableEq

/-- The body of the `for sentence in sentences` loop (lines 53-77): each
category list gets `sentence.strip()` appended when its test holds. -/
def classifySentence (insights : Insights) (sentence : List Char) : Insights :=
  { insights with
    implementation_patterns :=
      if keywordCond implementation_keywords sentence then
        insights.implementation_patterns ++ [String.mk (pyStrip sentence)]
      else insights.implementation_patterns
    performance_tips :=
      if keywordCond performance_keywords sentence then
        insights.performance_tips ++ [String.mk (pyStrip sentence)]
      else insights.performance_tips
    game_mechanics :=
      if keywordCond game_keywords sentence then
        insights.game_mechanics ++ [String.mk (pyStrip sentence)]
      else insights.game_mechanics
    common_issues :=
      if keywordCond issue_keywords sentence then
        insights.common_issues ++ [String.mk (pyStrip sentence)]
      else insights.common_issues
    code_snippets :=
      if codeCond sentence then
        insights.code_snippets ++ [String.mk (pyStrip sentence)]
      else insights.code_snippets }

/-- `extract_key_insights(transcript_text, video_title)` (lines 32-79). -/
def extract_key_insights (transcript_text : String) (video_title : String) : Insights :=
  (splitSentences transcript_text.data).foldl classifySentence
    { title := video_title
      implementation_patterns := []
      performance_tips := []
      game_mechanics := []
      common_issues := []
      code_snippets := []
      video_id := ""
      transcript_length := 0 }

/-- The module-level catalog `VIDEO_IDS` (lines 18-30), as the ordered list of
(identifier, label) pairs a Python dict iterates in insertion order. -/
def VIDEO_IDS : List (String × String) :=
  [("OhMs-ipk8gE", "MediaPipe Pose Detection in JavaScript"),
   ("cc0H_sZrOiM", "Google MediaPipe Pose - JavaScript Tutorial"),
   ("FPD9YnxHJfE", "PoseNet Real-Time Pose Detection"),
   ("Iy4UQNZklyk", "Build AI Pose Estimation App"),
   ("9wy7P2GJvhE", "Pose Estimation Game Tutorial"),
   ("4c0pOJnt994", "Motion Capture Games with JavaScript"),
   ("pjAihwONJuI", "Gesture Recognition Gaming"),
   ("6CKjCLfL7FE", "Optimizing MediaPipe Performance"),
   ("T0kzis7cwJM", "Real-time Computer Vision Optimization")]

/-- Modelled external collaborator: `TextFormatter.format_transcript` joins
the transcript's segment texts with newlines. -/
def formatTranscript (segments : List String) : String :=
  String.intercalate "\n" segments

/-- `analyze_videos` (lines 81-114): iterate the catalog in order; a failed
fetch (`.error`) is caught at the per-item boundary and adds nothing; a
successful fetch is formatted, classified, and the record completed with the
identifier and segment count. The fetch collaborator and the catalog are
explicit parameters here (in the source they are the module-level API object
and `VIDEO_IDS`). -/
def analyze_videos (fetch : String → Except String (List String))
    (catalog : List (String × String)) : List Insights :=
  catalog.foldl
    (fun all_insights entry =>
      match fetch entry.1 with
      | Except.error _ => all_insights
      | Except.ok transcript =>
        let text := formatTranscript transcript
        let insights := extract_key_insights text entry.2
        all_insights ++
          [{ insights with video_id := entry.1, transcript_length := transcript.length }])
    []

/-- The aggregation loops of `generate_markdown_report`
(`all_patterns.extend(video[...])` over the records). -/
def aggregate (data : List Insights) (proj : Insights → List String) : List String :=
  data.foldl (fun acc video => acc ++ proj video) []

/-- `list(set(pool))[:10]`: one duplicate-free enumeration of the pooled
sentences, truncated to ten. -/
def uniqueTop (pool : List String) : List String :=
  pool.dedup.take 10

/-- `unique_patterns` (line 137). -/
def unique_patterns (data : List Insights) : List String :=
  uniqueTop (aggregate data fun video => video.implementation_patterns)

/-- `unique_tips` (line 148). -/
def unique_tips (data : List Insights) : List String :=
  uniqueTop (aggregate data fun video => video.performance_tips)

/-- `unique_mechanics` (line 159). -/
def unique_mechanics (data : List Insights) : List String :=
  uniqueTop (aggregate data fun video => video.game_mechanics)

/-- `unique_issues` (line 170). -/
def unique_issues (data : List Insights) : List String :=
  uniqueTop (aggregate data fun video => video.common_issues)

/-- `for pattern in unique_...: report += f"- \x7bpattern\x7d\n"`. -/
def bulletList (items : List String) : String :=
  String.join (items.map fun s => "- " ++ s ++ "\n")

/-- One entry of the per-video summary loop (lines 176-181). -/
def videoSummary (video : Insights) : String :=
  "### " ++ video.title ++ "\n" ++
    "- **Video ID**: " ++ video.video_id ++ "\n" ++
    "- **Transcript Length**: " ++ toString video.transcript_length ++ " segments\n" ++
    "- **Key Insights**: " ++ toString video.implementation_patterns.length ++ " patterns, " ++
    toString video.performance_tips.length ++ " tips, " ++
    toString video.game_mechanics.length ++ " mechanics\n\n"

/-- The "Video Summaries" section: its header plus one summary per record. -/
def videoSummariesSection (data : List Insights) : String :=
  "\n## 📹 Video Summaries\n\n" ++ String.join (data.map videoSummary)

/-- The static trailing sections of the report (the final triple-quoted
literal of `generate_markdown_report`), verbatim. -/
def staticTrailingSections : String :=
  "\n## 🔍 Key Takeaways for Our Project\n\nBased on the analysis of these videos, here are the most important insights for our pose detection game:\n\n1. **Use MediaPipe over PoseNet** - Multiple videos emphasize MediaPipe's superior performance\n2. **Implement pose smoothing** - Essential for stable gameplay experience\n3. **Optimize detection zones** - Focus on specific body parts relevant to game mechanics\n4. **Add visual feedback** - Show skeleton overlay and detection confidence\n5. **Handle edge cases** - Account for partial visibility and multiple people\n6. **Test different lighting** - Pose detection accuracy varies with lighting conditions\n7. **Consider mobile performance** - Reduce model complexity for mobile devices\n8. **Add calibration phase** - Let players adjust their position before starting\n9. **Use confidence thresholds** - Filter out low-confidence detections\n10. **Implement gesture debouncing** - Prevent accidental repeated actions\n\n## 📚 Recommended Implementation Order\n\n1. Set up basic MediaPipe pose detection\n2. Implement pose landmark visualization\n3. Create simple gesture recognition (e.g., hands up)\n4. Add game mechanics tied to specific poses\n5. Implement score system and feedback\n6. Optimize performance and add smoothing\n7. Add multiplayer support if needed\n8. Polish with effects and sound\n"

/-- The opening f-string of the report, with the wall-clock timestamp passed
in as `now`. -/
def reportHeader (now : String) (data : List Insights) : String :=
  "# YouTube Video Analysis: Pose Detection Gaming\n*Generated on " ++ now ++
    "*\n\n## 📊 Analysis Summary\n\nAnalyzed " ++ toString data.length ++
    " videos about pose detection in gaming applications.\n\n## 🎯 Key Implementation Patterns\n\n"

/-- `generate_markdown_report(insights_data)` (lines 116-211). -/
def generate_markdown_report (now : String) (insights_data : List Insights) : String :=
  reportHeader now insights_data ++
    bulletList (unique_patterns insights_data) ++
    "\n## ⚡ Performance Optimization Tips\n\n" ++
    bulletList (unique_tips insights_data) ++
    "\n## 🎮 Game Mechanics Insights\n\n" ++
    bulletList (unique_mechanics insights_data) ++
    "\n## ⚠️ Common Issues and Solutions\n\n" ++
    bulletList (unique_issues insights_data) ++
    videoSummariesSection insights_data ++
    staticTrailingSections

/-- The running example of the specification. -/
def demoText : String :=
  "We need to optimize performance for the game. Initialize the player position carefully."

/-! ### Structural lemmas about the sentence splitter -/

theorem splitSentences_ne_nil (l : List Char) : splitSentences l ≠ [] := by
  cases l with
  | nil => simp [splitSentences]
  | cons c cs =>
    simp only [splitSentences]
    split
    · simp
    · split <;> simp

theorem length_splitSentences (l : List Char) :
    (splitSentences l).length = l.countP isSentenceTerminator + 1 := by
  induction l with
  | nil => simp [splitSentences]
  | cons c cs ih =>
    simp only [splitSentences, List.countP_cons]
    by_cases h : isSentenceTerminator c
    · simp [h, ih]
    · simp only [if_neg h, h]
      cases hs : splitSentences cs with
      | nil => exact absurd hs (splitSentences_ne_nil cs)
      | cons s rest =>
        rw [hs] at ih
        simp at ih ⊢
        omega

theorem splitSentences_no_terminator (l : List Char) :
    ∀ s ∈ splitSentences l, ∀ c ∈ s, isSentenceTerminator c = false := by
  induction l with
  | nil => simp [splitSentences]
  | cons c cs ih =>
    simp only [splitSentences]
    by_cases h : isSentenceTerminator c
    · simp only [if_pos h]
      intro s' hs' c' hc'
      rcases List.mem_cons.mp hs' with rfl | hmem
      · simp at hc'
      · exact ih s' hmem c' hc'
    · simp only [if_neg h]
      cases hs : splitSentences cs with
      | nil => exact absurd hs (splitSentences_ne_nil cs)
      | cons s rest =>
        intro s' hs' c' hc'
        rcases List.mem_cons.mp hs' with rfl | hmem
        · rcases List.mem_cons.mp hc' with rfl | hc
          · simpa using h
          · exact ih s (by rw [hs]; exact List.mem_cons_self _ _) c' hc
        · exact ih s' (by rw [hs]; exact List.mem_cons_of_mem _ hmem) c' hc'

theorem splitSentences_of_no_terminator (l : List Char)
    (h : ∀ c ∈ l, isSentenceTerminator c = false) : splitSentences l = [l] := by
  induction l with
  | nil => simp [splitSentences]
  | cons c cs ih =>
    have hc : isSentenceTerminator c = false := h c (List.mem_cons_self _ _)
    have hcs := ih fun x hx => h x (List.mem_cons_of_mem _ hx)
    simp [splitSentences, hc, hcs]

/-! ### The classification loop, one category at a time -/

theorem foldl_classify_impl (sents : List (List Char)) (acc : Insights) :
    (sents.foldl classifySentence acc).implementation_patterns =
      acc.implementation_patterns ++
        (sents.filter (keywordCond implementation_keywords)).map
          (fun s => String.mk (pyStrip s)) := by
  induction sents generalizing acc with
  | nil => simp
  | cons s rest ih =>
    rw [List.foldl_cons, ih]
    by_cases h : keywordCond implementation_keywords s <;>
      simp [classifySentence, h, List.filter_cons, List.append_assoc]

theorem foldl_classify_perf (sents : List (List Char)) (acc : Insights) :
    (sents.foldl classifySentence acc).performance_tips =
      acc.performance_tips ++
        (sents.filter (keywordCond performance_keywords)).map
          (fun s => String.mk (pyStrip s)) := by
  induction sents generalizing acc with
  | nil => simp
  | cons s rest ih =>
    rw [List.foldl_cons, ih]
    by_cases h : keywordCond performance_keywords s <;>
      simp [classifySentence, h, List.filter_cons, List.append_assoc]

theorem foldl_classify_game (sents : List (List Char)) (acc : Insights) :
    (sents.foldl classifySentence acc).game_mechanics =
      acc.game_mechanics ++
        (sents.filter (keywordCond game_keywords)).map
          (fun s => String.mk (pyStrip s)) := by
  induction sents generalizing acc with
  | nil => simp
  | cons s rest ih =>
    rw [List.foldl_cons, ih]
    by_cases h : keywordCond game_keywords s <;>
      simp [classifySentence, h, List.filter_cons, List.append_assoc]

theorem foldl_classify_issue (sents : List (List Char)) (acc : Insights) :
    (sents.foldl classifySentence acc).common_issues =
      acc.common_issues ++
        (sents.filter (keywordCond issue_keywords)).map
          (fun s => String.mk (pyStrip s)) := by
  induction sents generalizing acc with
  | nil => simp
  | cons s rest ih =>
    rw [List.foldl_cons, ih]
    by_cases h : keywordCond issue_keywords s <;>
      simp [classifySentence, h, List.filter_cons, List.append_assoc]

theorem foldl_classify_code (sents : List (List Char)) (acc : Insights) :
    (sents.foldl classifySentence acc).code_snippets =
      acc.code_snippets ++
        (sents.filter codeCond).map (fun s => String.mk (pyStrip s)) := by
  induction sents generalizing acc with
  | nil => simp
  | cons s rest ih =>
    rw [List.foldl_cons, ih]
    by_cases h : codeCond s <;>
      simp [classifySentence, h, List.filter_cons, List.append_assoc]

/-! ### Field characterisations of `extract_key_insights` -/

theorem extract_impl_eq (t title : String) :
    (extract_key_insights t title).implementation_patterns =
      ((splitSentences t.data).filter (keywordCond implementation_keywords)).map
        (fun s => String.mk (pyStrip s)) := by
  unfold extract_key_insights
  rw [foldl_classify_impl]
  rfl

theorem extract_perf_eq (t title : String) :
    (extract_key_insights t title).performance_tips =
      ((splitSentences t.data).filter (keywordCond performance_keywords)).map
        (fun s => String.mk (pyStrip s)) := by
  unfold extract_key_insights
  rw [foldl_classify_perf]
  rfl

theorem extract_game_eq (t title : String) :
    (extract_key_insights t title).game_mechanics =
      ((splitSentences t.data).filter (keywordCond game_keywords)).map
        (fun s => String.mk (pyStrip s)) := by
  unfold extract_key_insights
  rw [foldl_classify_game]
  rfl

theorem extract_issue_eq (t title : String) :
    (extract_key_insights t title).common_issues =
      ((splitSentences t.data).filter (keywordCond issue_keywords)).map
        (fun s => String.mk (pyStrip s)) := by
  unfold extract_key_insights
  rw [foldl_classify_issue]
  rfl

theorem extract_code_eq (t title : String) :
    (extract_key_insights t title).code_snippets =
      ((splitSentences t.data).filter codeCond).map (fun s => String.mk (pyStrip s)) := by
  unfold extract_key_insights
  rw [foldl_classify_code]
  rfl

/-! ### The stripped sentences are trimmed and terminator-free -/

theorem dropWhile_pyStrip (l : List Char) :
    List.dropWhile pyWhitespace (pyStrip l) = pyStrip l := by
  have hA : List.dropWhile pyWhitespace (List.dropWhile pyWhitespace l) =
      List.dropWhile pyWhitespace l := List.dropWhile_idempotent _ _
  obtain ⟨t, ht⟩ := List.rdropWhile_prefix pyWhitespace (List.dropWhile pyWhitespace l)
  unfold pyStrip
  cases hS : List.rdropWhile pyWhitespace (List.dropWhile pyWhitespace l) with
  | nil => simp
  | cons s₀ S =>
    rw [hS, List.cons_append] at ht
    rw [← ht, List.dropWhile_cons] at hA
    by_cases hp : pyWhitespace s₀
    · rw [if_pos hp] at hA
      have hlen := congrArg List.length hA
      have hle := (List.dropWhile_sublist (l := S ++ t) pyWhitespace).length_le
      simp at hlen hle
      omega
    · rw [List.dropWhile_cons, if_neg hp]

theorem rdropWhile_pyStrip (l : List Char) :
    List.rdropWhile pyWhitespace (pyStrip l) = pyStrip l := by
  unfold pyStrip
  exact List.rdropWhile_idempotent _ _

theorem pyStrip_idempotent (l : List Char) : pyStrip (pyStrip l) = pyStrip l := by
  show List.rdropWhile pyWhitespace (List.dropWhile pyWhitespace (pyStrip l)) = pyStrip l
  rw [dropWhile_pyStrip, rdropWhile_pyStrip]

theorem mem_pyStrip {c : Char} {l : List Char} (h : c ∈ pyStrip l) : c ∈ l := by
  unfold pyStrip at h
  have h1 := ( List.rdropWhile_prefix pyWhitespace
    (List.dropWhile pyWhitespace l)).sublist.subset h
  exact (List.dropWhile_sublist pyWhitespace).subset h1

theorem stored_ok (t : String) (s : List Char) (hs : s ∈ splitSentences t.data) :
    pyStrip (String.mk (pyStrip s)).data = (String.mk (pyStrip s)).data ∧
      ∀ c ∈ (String.mk (pyStrip s)).data, isSentenceTerminator c = false :=
  ⟨pyStrip_idempotent s,
    fun c hc => splitSentences_no_terminator t.data s hs c (mem_pyStrip hc)⟩


/-- C1: for every input text and label, a candidate sentence is appended to a named
category (implementation_patterns, performance_tips, game_mechanics, common_issues)
exactly when some keyword of that category is a substring of the lower-cased trimmed
sentence and the trimmed sentence is longer than 20 characters (`keywordCond`): each
field equals the filter of the candidate sentences by its category test, mapped to the
trimmed sentence. The four characterisations hold simultaneously, so a sentence that
meets several keyword sets is appended to each of those categories (no early exit,
membership is not mutually exclusive). -/
theorem spec_C1 (transcript_text video_title : String) :
    (extract_key_insights transcript_text video_title).implementation_patterns =
      ((splitSentences transcript_text.data).filter
        (keywordCond implementation_keywords)).map (fun s => String.mk (pyStrip s)) ∧
    (extract_key_insights transcript_text video_title).performance_tips =
      ((splitSentences transcript_text.data).filter
        (keywordCond performance_keywords)).map (fun s => String.mk (pyStrip s)) ∧
    (extract_key_insights transcript_text video_title).game_mechanics =
      ((splitSentences transcript_text.data).filter
        (keywordCond game_keywords)).map (fun s => String.mk (pyStrip s)) ∧
    (extract_key_insights transcript_text video_title).common_issues =
      ((splitSentences transcript_text.data).filter
        (keywordCond issue_keywords)).map (fun s => String.mk (pyStrip s)) :=
  ⟨extract_impl_eq transcript_text video_title, extract_perf_eq transcript_text video_title,
    extract_game_eq transcript_text video_title, extract_issue_eq transcript_text video_title⟩

/-- C2: a candidate sentence is appended (trimmed) to code_snippets exactly when it
contains one of the four literal substrings "const ", "let ", "function ", "var "
(`codeCond`, applied to the original sentence, no length filter); and indeed the
9-character input "let x = 1" produces a code_snippets entry of trimmed length at
most 20. -/
theorem spec_C2 :
    (∀ transcript_text video_title : String,
      (extract_key_insights transcript_text video_title).code_snippets =
        ((splitSentences transcript_text.data).filter codeCond).map
          (fun s => String.mk (pyStrip s))) ∧
    (extract_key_insights "let x = 1" "T").code_snippets = ["let x = 1"] ∧
    ("let x = 1" : String).length ≤ 20 :=
  ⟨extract_code_eq, by decide, by decide⟩

/-- C3: the splitter cuts exactly at occurrences of the characters '.', '!' and '?':
a text with n terminators yields n + 1 candidate sentences, no candidate sentence
contains a terminator, and a text containing none of the three characters yields
exactly one candidate sentence, the whole text. -/
theorem spec_C3 :
    (∀ l : List Char, (splitSentences l).length = l.countP isSentenceTerminator + 1) ∧
    (∀ l : List Char, ∀ s ∈ splitSentences l, ∀ c ∈ s, isSentenceTerminator c = false) ∧
    (∀ t : String, (∀ c ∈ t.data, isSentenceTerminator c = false) →
      splitSentences t.data = [t.data]) :=
  ⟨length_splitSentences, splitSentences_no_terminator,
    fun t h => splitSentences_of_no_terminator t.data h⟩

theorem spec_C3_witness :
    splitSentences ("hello world").data = [("hello world").data] :=
  spec_C3.2.2 "hello world" (by decide)

/-- C4: on the demo text "We need to optimize performance for the game. Initialize
the player position carefully." with label "Demo", implementation_patterns is exactly
["Initialize the player position carefully"], performance_tips is exactly
["We need to optimize performance for the game"], game_mechanics contains both
sentences (it is exactly that two-element list), common_issues is exactly
["Initialize the player position carefully"] ("careful" matches inside "carefully"),
and code_snippets is empty. -/
theorem spec_C4 :
    (extract_key_insights demoText "Demo").implementation_patterns =
      ["Initialize the player position carefully"] ∧
    (extract_key_insights demoText "Demo").performance_tips =
      ["We need to optimize performance for the game"] ∧
    (extract_key_insights demoText "Demo").game_mechanics =
      ["We need to optimize performance for the game",
       "Initialize the player position carefully"] ∧
    (extract_key_insights demoText "Demo").common_issues =
      ["Initialize the player position carefully"] ∧
    (extract_key_insights demoText "Demo").code_snippets = [] := by
  refine ⟨?_, ?_, ?_, ?_, ?_⟩ <;> decide

/-- C7: for the empty input text and any label, `extract_key_insights` is total (no
error path exists in the embedding) and all five sequences of the returned record are
empty. -/
theorem spec_C7 (video_title : String) :
    (extract_key_insights "" video_title).implementation_patterns = [] ∧
    (extract_key_insights "" video_title).performance_tips = [] ∧
    (extract_key_insights "" video_title).game_mechanics = [] ∧
    (extract_key_insights "" video_title).common_issues = [] ∧
    (extract_key_insights "" video_title).code_snippets = [] :=
  ⟨rfl, rfl, rfl, rfl, rfl⟩

/-- C9: every string stored in any of the five output sequences of
`extract_key_insights` is trimmed (stripping it again is the identity, so it has no
leading or trailing whitespace) and contains none of the characters '.', '!' or '?'. -/
theorem spec_C9 (t title x : String)
    (hx : x ∈ (extract_key_insights t title).implementation_patterns ∨
          x ∈ (extract_key_insights t title).performance_tips ∨
          x ∈ (extract_key_insights t title).game_mechanics ∨
          x ∈ (extract_key_insights t title).common_issues ∨
          x ∈ (extract_key_insights t title).code_snippets) :
    pyStrip x.data = x.data ∧ ∀ c ∈ x.data, isSentenceTerminator c = false := by
  rcases hx with h | h | h | h | h
  · rw [extract_impl_eq] at h
    simp only [List.mem_map, List.mem_filter] at h
    obtain ⟨s, ⟨hs, -⟩, rfl⟩ := h
    exact stored_ok t s hs
  · rw [extract_perf_eq] at h
    simp only [List.mem_map, List.mem_filter] at h
    obtain ⟨s, ⟨hs, -⟩, rfl⟩ := h
    exact stored_ok t s hs
  · rw [extract_game_eq] at h
    simp only [List.mem_map, List.mem_filter] at h
    obtain ⟨s, ⟨hs, -⟩, rfl⟩ := h
    exact stored_ok t s hs
  · rw [extract_issue_eq] at h
    simp only [List.mem_map, List.mem_filter] at h
    obtain ⟨s, ⟨hs, -⟩, rfl⟩ := h
    exact stored_ok t s hs
  · rw [extract_code_eq] at h
    simp only [List.mem_map, List.mem_filter] at h
    obtain ⟨s, ⟨hs, -⟩, rfl⟩ := h
    exact stored_ok t s hs

theorem spec_C9_witness :
    pyStrip ("fix the bug error here now").data = ("fix the bug error here now").data ∧
      ∀ c ∈ ("fix the bug error here now").data, isSentenceTerminator c = false :=
  spec_C9 "fix the bug error here now" "T" "fix the bug error here now"
    (Or.inr (Or.inr (Or.inr (Or.inl (by decide)))))

/-- C10: `extract_key_insights` does not deduplicate within a record: the input
"Fix this error right now! Fix this error right now!" stores the qualifying sentence
twice in common_issues; deduplication happens only in the report aggregate, where
`unique_issues` of that single record keeps one copy. -/
theorem spec_C10 :
    (extract_key_insights "Fix this error right now! Fix this error right now!"
        "T").common_issues =
      ["Fix this error right now", "Fix this error right now"] ∧
    unique_issues [extract_key_insights
        "Fix this error right now! Fix this error right now!" "T"] =
      ["Fix this error right now"] := by
  refine ⟨?_, ?_⟩ <;> decide

/-! ### Report aggregation -/

theorem uniqueTop_length_le (pool : List String) : (uniqueTop pool).length ≤ 10 :=
  List.length_take_le 10 pool.dedup

theorem uniqueTop_nodup (pool : List String) : (uniqueTop pool).Nodup :=
  List.Nodup.sublist (List.take_sublist 10 pool.dedup) (List.nodup_dedup pool)

/-- C5: for every sequence of insight records, each of the four aggregate
keyword-category sections of the report lists at most 10 bullets (the four
`unique_...` pools that `generate_markdown_report` renders are truncated to ten),
no matter how many unique matching sentences exist. -/
theorem spec_C5 (insights_data : List Insights) :
    (unique_patterns insights_data).length ≤ 10 ∧
    (unique_tips insights_data).length ≤ 10 ∧
    (unique_mechanics insights_data).length ≤ 10 ∧
    (unique_issues insights_data).length ≤ 10 :=
  ⟨uniqueTop_length_le _, uniqueTop_length_le _, uniqueTop_length_le _, uniqueTop_length_le _⟩

/-- C6: the report deduplicates each category pool with set semantics before
truncating: each aggregate bullet list is duplicate-free, so a sentence occurring
identically in the category lists of two different records contributes at most one
bullet (its count in the rendered list is at most one). -/
theorem spec_C6 (insights_data : List Insights) :
    (unique_patterns insights_data).Nodup ∧
    (unique_tips insights_data).Nodup ∧
    (unique_mechanics insights_data).Nodup ∧
    (unique_issues insights_data).Nodup ∧
    (∀ s : String, (unique_patterns insights_data).count s ≤ 1) ∧
    (∀ s : String, (unique_issues insights_data).count s ≤ 1) :=
  ⟨uniqueTop_nodup _, uniqueTop_nodup _, uniqueTop_nodup _, uniqueTop_nodup _,
    fun s => List.nodup_iff_count_le_one.mp (uniqueTop_nodup _) s,
    fun s => List.nodup_iff_count_le_one.mp (uniqueTop_nodup _) s⟩

/-! ### Error handling in `analyze_videos` -/

theorem analyze_videos_skip (fetch : String → Except String (List String))
    (pre post : List (String × String)) (id title e : String)
    (h : fetch id = Except.error e) :
    analyze_videos fetch (pre ++ (id, title) :: post) =
      analyze_videos fetch (pre ++ post) := by
  unfold analyze_videos
  rw [List.foldl_append, List.foldl_append, List.foldl_cons]
  congr 1
  simp [h]

theorem analyze_videos_single_error (fetch : String → Except String (List String))
    (id title e : String) (h : fetch id = Except.error e) :
    analyze_videos fetch [(id, title)] = [] := by
  simp [analyze_videos, h]

theorem videoSummariesSection_nil :
    videoSummariesSection [] = "\n## 📹 Video Summaries\n\n" := rfl

/-- C8: a catalog item whose fetch raises adds no record and iteration continues
with the remaining items; for a one-item catalog whose fetch fails the returned
collection is empty, and the report generated from it has an empty "Video Summaries"
section (the section header immediately precedes the static trailer) while the static
trailing sections ("Key Takeaways", "Recommended Implementation Order") are present
verbatim. -/
theorem spec_C8 :
    (∀ (fetch : String → Except String (List String))
        (pre post : List (String × String)) (id title e : String),
      fetch id = Except.error e →
        analyze_videos fetch (pre ++ (id, title) :: post) =
          analyze_videos fetch (pre ++ post)) ∧
    (∀ (fetch : String → Except String (List String)) (id title e now : String),
      fetch id = Except.error e →
        analyze_videos fetch [(id, title)] = [] ∧
        videoSummariesSection (analyze_videos fetch [(id, title)]) =
          "\n## 📹 Video Summaries\n\n" ∧
        ∃ p : String,
          generate_markdown_report now (analyze_videos fetch [(id, title)]) =
            p ++ "\n## 📹 Video Summaries\n\n" ++ staticTrailingSections) := by
  refine ⟨analyze_videos_skip, fun fetch id title e now h => ?_⟩
  have h0 : analyze_videos fetch [(id, title)] = [] :=
    analyze_videos_single_error fetch id title e h
  refine ⟨h0, by rw [h0]; exact videoSummariesSection_nil, ?_⟩
  rw [h0]
  refine ⟨reportHeader now [] ++ bulletList (unique_patterns []) ++
      "\n## ⚡ Performance Optimization Tips\n\n" ++ bulletList (unique_tips []) ++
      "\n## 🎮 Game Mechanics Insights\n\n" ++ bulletList (unique_mechanics []) ++
      "\n## ⚠️ Common Issues and Solutions\n\n" ++ bulletList (unique_issues []), ?_⟩
  rw [generate_markdown_report, videoSummariesSection_nil]

theorem spec_C8_witness :
    analyze_videos (fun _ => Except.error "no transcript")
        [("OhMs-ipk8gE", "MediaPipe Pose Detection in JavaScript")] = [] ∧
    videoSummariesSection (analyze_videos (fun _ => Except.error "no transcript")
        [("OhMs-ipk8gE", "MediaPipe Pose Detection in JavaScript")]) =
      "\n## 📹 Video Summaries\n\n" ∧
    ∃ p : String,
      generate_markdown_report "2026-10-12 00:00:00"
          (analyze_videos (fun _ => Except.error "no transcript")
            [("OhMs-ipk8gE", "MediaPipe Pose Detection in JavaScript")]) =
        p ++ "\n## 📹 Video Summaries\n\n" ++ staticTrailingSections :=
  spec_C8.2 (fun _ => Except.error "no transcript") "OhMs-ipk8gE"
    "MediaPipe Pose Detection in JavaScript" "no transcript" "2026-10-12 00:00:00" rfl
